import Mathlib

/-!
Shallow embedding of `src/components/GeometryExplorer/GeometryExplorer.tsx`,
the single component of the repository: a catalog of three.js geometries, a
selected shape rendered as one mesh in a viewport, and two persisted boolean
settings (wireframe, auto-rotate).

Modelling decisions:
* Geometry factories (`create: () => THREE.BufferGeometry`) are zero-argument
  and pure except for allocating a fresh resource; each is represented by the
  geometry data it produces (`GeometryShape`), and allocation freshness is
  tracked by resource ids drawn from a counter in the component state.
* `localStorage` is a string-keyed association list; `getItem` returns the
  value of the first matching key, `setItem` overwrites in place or appends.
* Dimensions, rotation angles and the camera aspect are rationals.
* React semantics that matter here and are made explicit: all effects run
  once after mount in declaration order (so the `[selectedGeometry]` effect
  already runs at mount, swapping the initial geometry); `setSelectedGeometry`
  with the currently selected item bails out and re-runs no effect; the mirror
  refs (lines 101-113) always hold the current state values when any later
  effect or the frame callback reads them, so they are identified with the
  state fields.
* Disposal of geometry and material resources is recorded as a list of the
  disposed resource ids, with multiplicity, in the order the `dispose()`
  calls occur.
-/

namespace GeometryExplorer

/-- Geometry data produced by the `THREE.*Geometry` constructors used by the
catalog (source lines 34-83), with the constructor arguments recorded
exactly as written there. -/
inductive GeometryShape where
  | sphereGeometry (radius : ℚ) (widthSegments heightSegments : ℕ)
  | boxGeometry (width height depth : ℚ)
  | coneGeometry (radius height : ℚ) (radialSegments : ℕ)
  | cylinderGeometry (radiusTop radiusBottom height : ℚ) (radialSegments : ℕ)
  | torusGeometry (radius tube : ℚ) (radialSegments tubularSegments : ℕ)
  | torusKnotGeometry (radius tube : ℚ) (tubularSegments radialSegments : ℕ)
  | dodecahedronGeometry (radius : ℚ)
  | icosahedronGeometry (radius : ℚ)
  deriving DecidableEq, Repr

/-- A catalog entry, type `GeometryItem` of the source (lines 4-10).  The
factory field `create` is modelled by the geometry data it produces: the
factory takes no arguments and is pure apart from allocating the returned
resource, so the produced data determines it. -/
structure GeometryItem where
  name : String
  category : String
  description : String
  create : GeometryShape
  color : String
  deriving DecidableEq, Repr

/-- The memoized catalog `geometries` (source lines 29-86), entry for entry. -/
def geometries : List GeometryItem :=
  [ { name := "Sphere", category := "Primitivas", description := "Esfera",
      create := GeometryShape.sphereGeometry 1 32 16, color := "#FF6B6B" },
    { name := "Box", category := "Primitivas", description := "Caja",
      create := GeometryShape.boxGeometry (3/2) (3/2) (3/2), color := "#44aa88" },
    { name := "Cone", category := "Primitivas", description := "Cono",
      create := GeometryShape.coneGeometry 1 2 32, color := "#556270" },
    { name := "Cylinder", category := "Primitivas", description := "Cilindro",
      create := GeometryShape.cylinderGeometry 1 1 2 32, color := "#C7F464" },
    { name := "Torus", category := "Primitivas", description := "Toro",
      create := GeometryShape.torusGeometry 1 (2/5) 16 100, color := "#FFA500" },
    { name := "TorusKnot", category := "Primitivas", description := "Nudo Toroidal",
      create := GeometryShape.torusKnotGeometry 1 (3/10) 100 16, color := "#6A0572" },
    { name := "Dodecahedron", category := "Platónicos", description := "Dodecaedro",
      create := GeometryShape.dodecahedronGeometry 1, color := "#FF6F91" },
    { name := "Icosahedron", category := "Platónicos", description := "Icosaedro",
      create := GeometryShape.icosahedronGeometry 1, color := "#00BFFF" } ]

/-- One step of the `reduce` of source lines 90-94 building the record from
category name to item list: JS object keys keep insertion order, so
the accumulator is an ordered association list; a new category is appended,
an existing one gets the item pushed at the end of its bucket. -/
def reduceStep (acc : List (String × List GeometryItem)) (g : GeometryItem) :
    List (String × List GeometryItem) :=
  if acc.any (fun p => p.1 = g.category) then
    acc.map (fun p => if p.1 = g.category then (p.1, p.2 ++ [g]) else p)
  else
    acc ++ [(g.category, [g])]

/-- `categorizedGeometries` (source lines 89-95): the catalog grouped by
category, category order by first appearance, items in insertion order. -/
def categorizedGeometries : List (String × List GeometryItem) :=
  geometries.foldl reduceStep []

/-- The catalog's first entry, `geometries[0]` (source line 98). -/
def firstGeometry : GeometryItem := geometries.get ⟨0, by decide⟩

/-- `localStorage.getItem`: the durable store is an association list. -/
def getItem (store : List (String × String)) (key : String) : Option String :=
  (store.find? (fun p => p.1 = key)).map (fun p => p.2)

/-- `localStorage.setItem`: overwrite the first binding of the key in place,
or append a new binding. -/
def setItem (store : List (String × String)) (key value : String) :
    List (String × String) :=
  if store.any (fun p => p.1 = key) then
    store.map (fun p => if p.1 = key then (key, value) else p)
  else
    store ++ [(key, value)]

/-- `String(b)` for a boolean, as used when persisting the toggles. -/
def boolString (b : Bool) : String := if b then "true" else "false"

/-- A `THREE.MeshPhongMaterial` as used here: colour, wireframe flag and the
re-upload flag `needsUpdate`, plus a resource id tracking identity across
reuse and disposal. -/
structure Material where
  id : ℕ
  color : String
  wireframe : Bool
  needsUpdate : Bool
  deriving DecidableEq, Repr

/-- An allocated geometry resource: a fresh id plus the data produced by the
factory that allocated it. -/
structure GeomRes where
  id : ℕ
  shape : GeometryShape
  deriving DecidableEq, Repr

/-- The displayed `THREE.Mesh`: the attached geometry and material resources
and the accumulated rotation angles, plus an id for object identity. -/
structure Mesh where
  id : ℕ
  geometry : GeomRes
  material : Material
  rotationX : ℚ
  rotationY : ℚ
  deriving DecidableEq, Repr

/-- The component state visible to the claims.  `wireframe`, `autoRotate` and
`selectedGeometry` are the three `useState` cells (the mirror refs of lines
101-113 always agree with them when read); `mesh` is
`currentMeshRef.current`; `viewportReady` records that the mount effect found
its container and built the scene; `mountGeometryId` / `mountMaterialId` are
the resources captured by the cleanup closure of the mount effect (source
lines 154-155 and 184-191); `nextGeomId` is the allocation counter;
`disposedGeoms` / `disposedMaterials` list the ids passed to `dispose()`, in
order and with multiplicity; the renderer and camera fields mirror
`setSize` / `aspect`; `renderCount` counts `renderer.render` calls. -/
structure ExplorerState where
  storage : List (String × String)
  wireframe : Bool
  autoRotate : Bool
  selectedGeometry : GeometryItem
  viewportReady : Bool
  mesh : Option Mesh
  mountGeometryId : Option ℕ
  mountMaterialId : Option ℕ
  nextGeomId : ℕ
  disposedGeoms : List ℕ
  disposedMaterials : List ℕ
  cameraAspect : ℚ
  rendererWidth : ℚ
  rendererHeight : ℚ
  animActive : Bool
  resizeListenerAttached : Bool
  sceneCleared : Bool
  rendererDisposed : Bool
  renderCount : ℕ
  deriving DecidableEq, Repr

/-- Body of the `[selectedGeometry]` effect (source lines 195-210): if no
mesh exists, return unchanged; otherwise dispose the previous geometry,
allocate a fresh one from the current selection's factory, attach it to the
same mesh, and update the reused material's colour, wireframe flag (read
from the mirror ref, i.e. the current `wireframe` state) and `needsUpdate`. -/
def selectionEffect (s : ExplorerState) : ExplorerState :=
  match s.mesh with
  | none => s
  | some m =>
      { s with
        disposedGeoms := s.disposedGeoms ++ [m.geometry.id],
        nextGeomId := s.nextGeomId + 1,
        mesh := some
          { m with
            geometry := { id := s.nextGeomId, shape := s.selectedGeometry.create },
            material :=
              { m.material with
                color := s.selectedGeometry.color,
                wireframe := s.wireframe,
                needsUpdate := true } } }

/-- Body of the `[wireframe]` effect at source lines 213-218: if a mesh
exists, write the current wireframe flag into the reused material and mark
it for re-upload. -/
def wireframeEffect (s : ExplorerState) : ExplorerState :=
  match s.mesh with
  | none => s
  | some m =>
      { s with
        mesh := some
          { m with
            material := { m.material with wireframe := s.wireframe, needsUpdate := true } } }

/-- One invocation of `animate` (source lines 161-168): reschedule itself,
rotate the mesh by the fixed deltas 0.01 and 0.015 when the auto-rotate
mirror ref (= current `autoRotate` state) is set and a mesh exists, then
render unconditionally. -/
def frameTick (s : ExplorerState) : ExplorerState :=
  let s2 :=
    match s.autoRotate, s.mesh with
    | true, some m =>
        { s with
          mesh := some
            { m with
              rotationX := m.rotationX + 1/100,
              rotationY := m.rotationY + 3/200 } }
    | _, _ => s
  { s2 with renderCount := s2.renderCount + 1 }

/-- Mounting the component with the given durable store, container presence
and container bounds.  The `useState` initializers (source lines 21-26) read
the store; then all effects run once in declaration order: the two sync
effects (lines 105-113) write both keys back; the setup effect (lines
116-192) builds the scene, camera, renderer and the initial mesh from the
selected entry's factory and calls `animate()` once synchronously, or
returns early when the container is absent; the `[selectedGeometry]` effect
(lines 195-210) and the `[wireframe]` effect (lines 213-218) then run on the
freshly built mesh. -/
def mount (storage0 : List (String × String)) (containerPresent : Bool)
    (rect : ℚ × ℚ) : ExplorerState :=
  let wf := getItem storage0 "wireframe" == some "true"
  let ar := getItem storage0 "autoRotate" != some "false"
  let storage1 := setItem (setItem storage0 "wireframe" (boolString wf))
    "autoRotate" (boolString ar)
  if containerPresent then
    let geom0 : GeomRes := { id := 0, shape := firstGeometry.create }
    let mat0 : Material :=
      { id := 0, color := firstGeometry.color, wireframe := wf, needsUpdate := false }
    let s0 : ExplorerState :=
      { storage := storage1, wireframe := wf, autoRotate := ar,
        selectedGeometry := firstGeometry, viewportReady := true,
        mesh := some { id := 0, geometry := geom0, material := mat0,
                       rotationX := 0, rotationY := 0 },
        mountGeometryId := some 0, mountMaterialId := some 0,
        nextGeomId := 1, disposedGeoms := [], disposedMaterials := [],
        cameraAspect := rect.1 / rect.2,
        rendererWidth := rect.1, rendererHeight := rect.2,
        animActive := true, resizeListenerAttached := true,
        sceneCleared := false, rendererDisposed := false, renderCount := 0 }
    wireframeEffect (selectionEffect (frameTick s0))
  else
    { storage := storage1, wireframe := wf, autoRotate := ar,
      selectedGeometry := firstGeometry, viewportReady := false,
      mesh := none, mountGeometryId := none, mountMaterialId := none,
      nextGeomId := 0, disposedGeoms := [], disposedMaterials := [],
      cameraAspect := 0, rendererWidth := 0, rendererHeight := 0,
      animActive := false, resizeListenerAttached := false,
      sceneCleared := false, rendererDisposed := false, renderCount := 0 }

/-- Clicking a catalog button: `setSelectedGeometry(geom)` (source line 241)
followed by the `[selectedGeometry]` effect.  Selecting the item that is
already selected is a React state-update bailout: no re-render, no effect. -/
def selectShape (s : ExplorerState) (g : GeometryItem) : ExplorerState :=
  if g = s.selectedGeometry then s
  else selectionEffect { s with selectedGeometry := g }

/-- Clicking the wireframe button: `setWireframe(!wireframe)` (source line
285), then the sync effect (lines 105-108) persists the new value and the
`[wireframe]` effect (lines 213-218) updates the material. -/
def toggleWireframe (s : ExplorerState) : ExplorerState :=
  let wf := !s.wireframe
  wireframeEffect
    { s with wireframe := wf, storage := setItem s.storage "wireframe" (boolString wf) }

/-- Clicking the auto-rotate button: `setAutoRotate(!autoRotate)` (source
line 267), then the sync effect (lines 110-113) persists the new value.  No
scene object is touched. -/
def toggleAutoRotate (s : ExplorerState) : ExplorerState :=
  let ar := !s.autoRotate
  { s with autoRotate := ar, storage := setItem s.storage "autoRotate" (boolString ar) }

/-- `handleResize` (source lines 172-180): return early when the refs are
not populated; otherwise each reported dimension independently falls back
when it is zero (`rect.width || 800`, `rect.height || 600`), the camera
aspect becomes their quotient and the renderer is resized to them. -/
def handleResize (s : ExplorerState) (rect : ℚ × ℚ) : ExplorerState :=
  if s.viewportReady then
    let w := if rect.1 = 0 then (800 : ℚ) else rect.1
    let h := if rect.2 = 0 then (600 : ℚ) else rect.2
    { s with cameraAspect := w / h, rendererWidth := w, rendererHeight := h }
  else s

/-- Unmounting: the cleanup returned by the mount effect (source lines
184-191) removes the resize listener, cancels the frame callback, calls
`dispose()` on the closure-captured mount-time `geometry` and `material`
locals (lines 154-155), clears the scene and disposes the renderer.  When
the container was absent at mount the effect returned before registering a
cleanup, so nothing happens. -/
def unmount (s : ExplorerState) : ExplorerState :=
  if s.viewportReady then
    { s with
      resizeListenerAttached := false,
      animActive := false,
      disposedGeoms := s.disposedGeoms ++
        (match s.mountGeometryId with | some i => [i] | none => []),
      disposedMaterials := s.disposedMaterials ++
        (match s.mountMaterialId with | some i => [i] | none => []),
      sceneCleared := true,
      rendererDisposed := true }
  else s

/-- `geometries[1]`, the "Box" entry. -/
def boxItem : GeometryItem := geometries.get ⟨1, by decide⟩

/-- `geometries[4]`, the "Torus" entry. -/
def torusItem : GeometryItem := geometries.get ⟨4, by decide⟩

/-- The state right after mounting with empty storage into an 800 × 600
container. -/
def mountedState : ExplorerState := mount [] true (800, 600)

/-- `mountedState` after clicking "Box". -/
def afterBoxState : ExplorerState := selectShape mountedState boxItem

/-- The state after mounting with empty storage while the container is
absent: the viewport is never initialized and no mesh exists. -/
def headlessState : ExplorerState := mount [] false (800, 600)


theorem selectionEffect_wireframe (s : ExplorerState) :
    (selectionEffect s).wireframe = s.wireframe := by
  rcases hM : s.mesh with _ | m <;> simp [selectionEffect, hM]

theorem selectionEffect_autoRotate (s : ExplorerState) :
    (selectionEffect s).autoRotate = s.autoRotate := by
  rcases hM : s.mesh with _ | m <;> simp [selectionEffect, hM]

theorem selectionEffect_selectedGeometry (s : ExplorerState) :
    (selectionEffect s).selectedGeometry = s.selectedGeometry := by
  rcases hM : s.mesh with _ | m <;> simp [selectionEffect, hM]

theorem wireframeEffect_wireframe (s : ExplorerState) :
    (wireframeEffect s).wireframe = s.wireframe := by
  rcases hM : s.mesh with _ | m <;> simp [wireframeEffect, hM]

theorem wireframeEffect_autoRotate (s : ExplorerState) :
    (wireframeEffect s).autoRotate = s.autoRotate := by
  rcases hM : s.mesh with _ | m <;> simp [wireframeEffect, hM]

theorem wireframeEffect_selectedGeometry (s : ExplorerState) :
    (wireframeEffect s).selectedGeometry = s.selectedGeometry := by
  rcases hM : s.mesh with _ | m <;> simp [wireframeEffect, hM]

theorem frameTick_wireframe (s : ExplorerState) :
    (frameTick s).wireframe = s.wireframe := by
  rcases hA : s.autoRotate <;> rcases hM : s.mesh with _ | m <;> simp [frameTick, hA, hM]

theorem frameTick_autoRotate (s : ExplorerState) :
    (frameTick s).autoRotate = s.autoRotate := by
  rcases hA : s.autoRotate <;> rcases hM : s.mesh with _ | m <;> simp [frameTick, hA, hM]

theorem frameTick_selectedGeometry (s : ExplorerState) :
    (frameTick s).selectedGeometry = s.selectedGeometry := by
  rcases hA : s.autoRotate <;> rcases hM : s.mesh with _ | m <;> simp [frameTick, hA, hM]

theorem mount_wireframe (storage : List (String × String)) (cp : Bool) (rect : ℚ × ℚ) :
    (mount storage cp rect).wireframe = (getItem storage "wireframe" == some "true") := by
  cases cp
  · rfl
  · simp [mount, wireframeEffect_wireframe, selectionEffect_wireframe, frameTick_wireframe]

theorem mount_autoRotate (storage : List (String × String)) (cp : Bool) (rect : ℚ × ℚ) :
    (mount storage cp rect).autoRotate = (getItem storage "autoRotate" != some "false") := by
  cases cp
  · rfl
  · simp [mount, wireframeEffect_autoRotate, selectionEffect_autoRotate, frameTick_autoRotate]

theorem mount_selectedGeometry (storage : List (String × String)) (cp : Bool) (rect : ℚ × ℚ) :
    (mount storage cp rect).selectedGeometry = firstGeometry := by
  cases cp
  · rfl
  · simp [mount, wireframeEffect_selectedGeometry, selectionEffect_selectedGeometry,
      frameTick_selectedGeometry]

/-- Claim C1: a selection change while the viewport is running disposes the
previous geometry exactly once, attaches the output of the new selection's
factory to the same mesh, reuses the same material object, and sets that
material's colour to the new selection's colour, its wireframe flag to the
current setting, and its re-upload flag. -/
theorem selection_change_spec (s : ExplorerState) (b : GeometryItem) (oldId : ℕ)
    (hm : (s.mesh.map fun m => m.geometry.id) = some oldId)
    (hne : b ≠ s.selectedGeometry)
    (hlive : s.disposedGeoms.count oldId = 0) :
    (selectShape s b).disposedGeoms.count oldId = 1 ∧
    ((selectShape s b).mesh.map fun m2 => m2.geometry.shape) = some b.create ∧
    ((selectShape s b).mesh.map fun m2 => m2.material.id) =
      (s.mesh.map fun m => m.material.id) ∧
    ((selectShape s b).mesh.map fun m2 => m2.material.color) = some b.color ∧
    ((selectShape s b).mesh.map fun m2 => m2.material.wireframe) = some s.wireframe ∧
    ((selectShape s b).mesh.map fun m2 => m2.material.needsUpdate) = some true := by
  rcases hM : s.mesh with _ | m
  · rw [hM] at hm; exact absurd hm (by simp)
  · rw [hM] at hm
    simp at hm
    subst hm
    simp [selectShape, if_neg hne, selectionEffect, hM, List.count_append, hlive]

/-- Witness for C1: the scenario of the spec, clicking "Box" and then
"Torus" after mounting with empty storage; Box's geometry has resource id
2 and the mesh's material keeps resource id 0. -/
theorem selection_change_spec_witness :
    (afterBoxState.mesh.map fun m => m.geometry.id) = some 2 ∧
    torusItem ≠ afterBoxState.selectedGeometry ∧
    afterBoxState.disposedGeoms.count 2 = 0 ∧
    ((selectShape afterBoxState torusItem).disposedGeoms.count 2 = 1 ∧
     ((selectShape afterBoxState torusItem).mesh.map fun m2 => m2.geometry.shape) =
       some torusItem.create ∧
     ((selectShape afterBoxState torusItem).mesh.map fun m2 => m2.material.id) =
       (afterBoxState.mesh.map fun m => m.material.id) ∧
     ((selectShape afterBoxState torusItem).mesh.map fun m2 => m2.material.color) =
       some torusItem.color ∧
     ((selectShape afterBoxState torusItem).mesh.map fun m2 => m2.material.wireframe) =
       some afterBoxState.wireframe ∧
     ((selectShape afterBoxState torusItem).mesh.map fun m2 => m2.material.needsUpdate) =
       some true) :=
  ⟨by decide, by decide, by decide,
    selection_change_spec afterBoxState torusItem 2 (by decide) (by decide) (by decide)⟩

/-- Claim C2: at startup the wireframe setting is on exactly when the store
holds the string "true" under the key "wireframe", auto-rotate is off
exactly when the store holds the string "false" under the key "autoRotate",
and with empty storage the selected shape is the catalog's first entry,
named "Sphere". -/
theorem startup_state_spec (storage : List (String × String)) (cp : Bool)
    (rect : ℚ × ℚ) :
    ((mount storage cp rect).wireframe = true ↔
      getItem storage "wireframe" = some "true") ∧
    ((mount storage cp rect).autoRotate = false ↔
      getItem storage "autoRotate" = some "false") ∧
    (mount [] cp rect).selectedGeometry = firstGeometry ∧
    firstGeometry.name = "Sphere" := by
  refine ⟨?_, ?_, mount_selectedGeometry [] cp rect, rfl⟩
  · rw [mount_wireframe]; simp
  · rw [mount_autoRotate]; simp

/-- Claim C3: one frame tick always renders (and keeps the callback
scheduled); when auto-rotate is on the mesh's rotation angles advance by
exactly 0.01 and 0.015 radians, and when it is off the mesh is untouched. -/
theorem frame_tick_spec (s : ExplorerState) :
    (frameTick s).renderCount = s.renderCount + 1 ∧
    (frameTick s).animActive = s.animActive ∧
    (frameTick s).mesh =
      (if s.autoRotate then
        s.mesh.map (fun m =>
          { m with rotationX := m.rotationX + 1/100, rotationY := m.rotationY + 3/200 })
      else s.mesh) := by
  rcases hA : s.autoRotate <;> rcases hM : s.mesh with _ | m <;>
    simp [frameTick, hA, hM]

/-- Claim C4, evaluated at the failing run mount-select "Box"-unmount: the
cleanup closure disposes the mount-time geometry id 0 a second time and
never disposes the currently attached geometry id 2, while the per-frame
callback is cancelled, the material is released, the scene is cleared, the
renderer is released and the resize listener removed. -/
theorem teardown_disposes_stale_geometry :
    (afterBoxState.mesh.map fun m => m.geometry.id) = some 2 ∧
    (unmount afterBoxState).disposedGeoms = [0, 1, 0] ∧
    (unmount afterBoxState).disposedGeoms.count 2 = 0 ∧
    (unmount afterBoxState).disposedGeoms.count 0 = 2 ∧
    (unmount afterBoxState).disposedMaterials = [0] ∧
    (unmount afterBoxState).animActive = false ∧
    (unmount afterBoxState).resizeListenerAttached = false ∧
    (unmount afterBoxState).sceneCleared = true ∧
    (unmount afterBoxState).rendererDisposed = true := by
  decide

/-- Claim C5: every catalog entry name is unique, and grouping the flat list
by category and flattening the groups back reproduces the original list. -/
theorem catalog_names_unique_and_grouping_roundtrip :
    (geometries.map (fun g => g.name)).Nodup ∧
    (categorizedGeometries.map (fun p => p.2)).flatten = geometries :=
  ⟨by decide, rfl⟩

/-- Counterexample for C6: resizing a running viewport to reported bounds
0 × 500 yields renderer size 800 × 500 with aspect 800/500, not the claimed
fixed default 800 × 600 with its aspect. -/
theorem resize_zero_width_counterexample :
    (handleResize mountedState (0, 500)).rendererWidth = 800 ∧
    (handleResize mountedState (0, 500)).rendererHeight = 500 ∧
    (handleResize mountedState (0, 500)).rendererHeight ≠ 600 ∧
    (handleResize mountedState (0, 500)).cameraAspect = 800 / 500 :=
  ⟨rfl, rfl, by decide, rfl⟩

/-- Claim C6 as amended: on resize each reported dimension independently
falls back when zero (width to 800, height to 600), the renderer is resized
to the fallback values and the camera aspect is their quotient; the
effective height is never zero, so the aspect computation never divides by
zero. -/
theorem resize_fallback_spec (s : ExplorerState) (w h : ℚ)
    (hready : s.viewportReady = true) :
    (handleResize s (w, h)).rendererWidth = (if w = 0 then 800 else w) ∧
    (handleResize s (w, h)).rendererHeight = (if h = 0 then 600 else h) ∧
    (if h = 0 then (600 : ℚ) else h) ≠ 0 ∧
    (handleResize s (w, h)).cameraAspect =
      (if w = 0 then (800 : ℚ) else w) / (if h = 0 then 600 else h) := by
  by_cases hw : w = 0 <;> by_cases hh : h = 0 <;>
    simp [handleResize, hready, hw, hh]

/-- Witness for C6 (amended): resize of the mounted viewport to reported
bounds 0 × 0. -/
theorem resize_fallback_spec_witness :
    mountedState.viewportReady = true ∧
    ((handleResize mountedState (0, 0)).rendererWidth = (if (0 : ℚ) = 0 then 800 else 0) ∧
     (handleResize mountedState (0, 0)).rendererHeight = (if (0 : ℚ) = 0 then 600 else 0) ∧
     (if (0 : ℚ) = 0 then (600 : ℚ) else 0) ≠ 0 ∧
     (handleResize mountedState (0, 0)).cameraAspect =
       (if (0 : ℚ) = 0 then (800 : ℚ) else 0) / (if (0 : ℚ) = 0 then 600 else 0)) :=
  ⟨by decide, resize_fallback_spec mountedState 0 0 (by decide)⟩

/-- Claim C7: selecting a shape never changes the wireframe or auto-rotate
settings, and each toggle changes neither the selection nor the other
flag. -/
theorem state_fields_independent (s : ExplorerState) (g : GeometryItem) :
    (selectShape s g).wireframe = s.wireframe ∧
    (selectShape s g).autoRotate = s.autoRotate ∧
    (toggleWireframe s).selectedGeometry = s.selectedGeometry ∧
    (toggleWireframe s).autoRotate = s.autoRotate ∧
    (toggleAutoRotate s).selectedGeometry = s.selectedGeometry ∧
    (toggleAutoRotate s).wireframe = s.wireframe := by
  refine ⟨?_, ?_, ?_, ?_, ?_, ?_⟩
  · by_cases hg : g = s.selectedGeometry <;>
      simp [selectShape, hg, selectionEffect_wireframe]
  · by_cases hg : g = s.selectedGeometry <;>
      simp [selectShape, hg, selectionEffect_autoRotate]
  · simp [toggleWireframe, wireframeEffect_selectedGeometry]
  · simp [toggleWireframe, wireframeEffect_autoRotate]
  · simp [toggleAutoRotate]
  · simp [toggleAutoRotate]

/-- Claim C8: from any state whose displayed material agrees with the
wireframe setting, toggling wireframe twice restores both the setting and
the material's wireframe flag. -/
theorem wireframe_double_toggle_spec (s : ExplorerState)
    (hsync : (s.mesh.map fun m => m.material.wireframe) =
      s.mesh.map fun _ => s.wireframe) :
    (toggleWireframe (toggleWireframe s)).wireframe = s.wireframe ∧
    ((toggleWireframe (toggleWireframe s)).mesh.map fun m => m.material.wireframe) =
      s.mesh.map fun m => m.material.wireframe := by
  rcases hM : s.mesh with _ | m
  · simp [toggleWireframe, wireframeEffect, hM]
  · rw [hM] at hsync
    simp at hsync
    simp [toggleWireframe, wireframeEffect, hM, hsync]

/-- Witness for C8: the double toggle applied to the freshly mounted
state. -/
theorem wireframe_double_toggle_spec_witness :
    (mountedState.mesh.map fun m => m.material.wireframe) =
      (mountedState.mesh.map fun _ => mountedState.wireframe) ∧
    ((toggleWireframe (toggleWireframe mountedState)).wireframe = mountedState.wireframe ∧
     ((toggleWireframe (toggleWireframe mountedState)).mesh.map
        fun m => m.material.wireframe) =
       mountedState.mesh.map fun m => m.material.wireframe) :=
  ⟨by decide, wireframe_double_toggle_spec mountedState (by decide)⟩

/-- Claim C9: when no mesh exists (the viewport was never initialized), a
selection change only records the new selection; no geometry is allocated
or disposed and no other component of the state is touched. -/
theorem selection_noop_without_mesh (s : ExplorerState) (g : GeometryItem)
    (hm : s.mesh = none) :
    selectShape s g = { s with selectedGeometry := g } := by
  by_cases hg : g = s.selectedGeometry
  · subst hg; simp [selectShape]
  · simp [selectShape, hg, selectionEffect, hm]

/-- Witness for C9: selecting "Box" after mounting without a container. -/
theorem selection_noop_without_mesh_witness :
    headlessState.mesh = none ∧
    selectShape headlessState boxItem = { headlessState with selectedGeometry := boxItem } :=
  ⟨rfl, selection_noop_without_mesh headlessState boxItem rfl⟩

/-- Claim C10: a selection change reuses the same mesh object and preserves
its accumulated rotation angles. -/
theorem selection_preserves_mesh_and_rotation (s : ExplorerState) (g : GeometryItem) :
    ((selectShape s g).mesh.map fun m => (m.id, m.rotationX, m.rotationY)) =
      s.mesh.map fun m => (m.id, m.rotationX, m.rotationY) := by
  by_cases hg : g = s.selectedGeometry <;> rcases hM : s.mesh with _ | m <;>
    simp [selectShape, hg, selectionEffect, hM]

end GeometryExplorer
